import Mathlib

/-!
Verification development for the AI-NOVEL-FACTORY production pipeline.

This file gives a shallow embedding of the orchestration core of the
repository: the Book lifecycle state machine (`src/novels/models/book.py`),
the Chapter state machine (`src/novels/models/story.py`), the daily content
generation tasks (`src/novels/tasks/content.py`), the pricing phase engine
(`src/novels/tasks/pricing.py`, `src/novels/models/marketing.py`) and the
progress aggregator, and proves or refutes the specified properties.

Modelling conventions:
- Django rows become Lean structures holding exactly the fields the claims
  touch; timestamps are abstract day/instant numbers (`Nat`/`Int`) passed in
  by the caller where the code reads the clock.
- `Decimal`/`float` fields become `ℚ` (all constants in the code are exact
  decimals, so this is faithful for every value the claims evaluate).
- The `django_fsm.transition` decorator validates the in-memory field value
  against the allowed source list, raises `TransitionNotAllowed` on mismatch
  (leaving the object untouched), otherwise runs the method body and sets the
  field to the target; `Model.save()` then overwrites the whole row.  This
  per-call semantics is embedded in `runEvent`; the persistence semantics
  (load / save against a shared row) is embedded separately in `raceStep`.
-/

namespace NovelFactory

/-- The 13 Book lifecycle states of `BookLifecycleStatus` in
`src/novels/models/book.py`. -/
inductive BookLifecycleStatus where
  | concept_pending
  | keyword_research
  | keyword_approved
  | description_generation
  | description_approved
  | bible_generation
  | bible_approved
  | writing_in_progress
  | qa_review
  | export_ready
  | published_kdp
  | published_all
  | archived
deriving DecidableEq, Repr

/-- The fields of the `Book` row that the lifecycle engine and the claims
read or write (`src/novels/models/book.py`). -/
structure Book where
  lifecycle_status : BookLifecycleStatus
  ai_detection_score : Option ℚ
  plagiarism_score : Option ℚ
  kdp_preflight_passed : Bool
  published_at : Option Nat
  target_chapter_count : Nat
  is_deleted : Bool
deriving DecidableEq, Repr

/-- The 13 lifecycle events (`@transition`-decorated methods of `Book`).
`approve_qa` and `publish_kdp` in the source are aliases of
`approve_for_export` and `publish_to_kdp` and are not separate events. -/
inductive BookEvent where
  | start_keyword_research
  | approve_keywords
  | start_description_generation
  | approve_description
  | start_bible_generation
  | approve_bible
  | start_writing
  | submit_for_qa
  | return_to_writing
  | approve_for_export
  | publish_to_kdp
  | publish_to_all_platforms
  | archive
deriving DecidableEq, Repr

open BookLifecycleStatus in
/-- Allowed source states of each event, transcribed from the `source=`
arguments of the `@transition` decorators in `src/novels/models/book.py`. -/
def eventSources : BookEvent → List BookLifecycleStatus
  | .start_keyword_research => [concept_pending]
  | .approve_keywords => [keyword_research]
  | .start_description_generation => [keyword_approved]
  | .approve_description => [description_generation]
  | .start_bible_generation => [description_approved]
  | .approve_bible => [bible_generation]
  | .start_writing => [bible_approved, keyword_approved, bible_generation]
  | .submit_for_qa => [writing_in_progress]
  | .return_to_writing => [qa_review]
  | .approve_for_export => [qa_review, writing_in_progress]
  | .publish_to_kdp => [export_ready]
  | .publish_to_all_platforms => [published_kdp]
  | .archive => [published_kdp, published_all]

open BookLifecycleStatus in
/-- Target state of each event, transcribed from the `target=` arguments of
the `@transition` decorators in `src/novels/models/book.py`. -/
def eventTarget : BookEvent → BookLifecycleStatus
  | .start_keyword_research => keyword_research
  | .approve_keywords => keyword_approved
  | .start_description_generation => description_generation
  | .approve_description => description_approved
  | .start_bible_generation => bible_generation
  | .approve_bible => bible_approved
  | .start_writing => writing_in_progress
  | .submit_for_qa => qa_review
  | .return_to_writing => writing_in_progress
  | .approve_for_export => export_ready
  | .publish_to_kdp => published_kdp
  | .publish_to_all_platforms => published_all
  | .archive => archived

/-- The method bodies of the transition-decorated methods.  All bodies are
`pass` except `approve_for_export` (sets `kdp_preflight_passed = True`) and
`publish_to_kdp` (sets `published_at = timezone.now()` when unset); `now` is
the clock value read by the latter. -/
def eventEffect (e : BookEvent) (now : Nat) (b : Book) : Book :=
  match e with
  | .approve_for_export => { b with kdp_preflight_passed := true }
  | .publish_to_kdp =>
      match b.published_at with
      | none => { b with published_at := some now }
      | some _ => b
  | _ => b

/-- One invocation of a lifecycle event on an in-memory `Book` object,
following `django_fsm`: if the current field value is in the event's source
list the body runs and the field is set to the target (returned with flag
`true`); otherwise `TransitionNotAllowed` is raised and the object is
untouched (returned with flag `false`). -/
def runEvent (e : BookEvent) (now : Nat) (b : Book) : Book × Bool :=
  if b.lifecycle_status ∈ eventSources e then
    ({ eventEffect e now b with lifecycle_status := eventTarget e }, true)
  else
    (b, false)

/-- A Book sitting in KEYWORD_APPROVED, used as a concrete test state. -/
def bookKeywordApproved : Book :=
  { lifecycle_status := .keyword_approved, ai_detection_score := none,
    plagiarism_score := none, kdp_preflight_passed := false,
    published_at := none, target_chapter_count := 80, is_deleted := false }

/-- A Book sitting in QA_REVIEW whose AI-detection score (25) is above the
quality-gate threshold (20) while its plagiarism score (1) is below its
threshold (3). -/
def bookQaReviewHighAi : Book :=
  { lifecycle_status := .qa_review, ai_detection_score := some 25,
    plagiarism_score := some 1, kdp_preflight_passed := false,
    published_at := none, target_chapter_count := 80, is_deleted := false }

/-- C2: every lifecycle event invoked from one of its allowed source states
succeeds and commits exactly the target state of the transition table;
invoked from any other state it raises (flag `false`) and leaves the Book —
in particular `lifecycle_status` — unchanged; `start_writing`'s allowed
sources are exactly {BIBLE_APPROVED, KEYWORD_APPROVED, BIBLE_GENERATION} and
its target is WRITING_IN_PROGRESS.  Since states are drawn from the 13-value
enumeration, `lifecycle_status` always remains one of the 13 values. -/
theorem C2_book_fsm_transition_table (e : BookEvent) (now : Nat) (b : Book) :
    ((runEvent e now b).2 = true ↔ b.lifecycle_status ∈ eventSources e)
    ∧ ((runEvent e now b).2 = true →
        (runEvent e now b).1.lifecycle_status = eventTarget e)
    ∧ ((runEvent e now b).2 = false → (runEvent e now b).1 = b)
    ∧ eventSources .start_writing
        = [.bible_approved, .keyword_approved, .bible_generation]
    ∧ eventTarget .start_writing = .writing_in_progress := by
  refine ⟨?_, ?_, ?_, rfl, rfl⟩ <;>
    by_cases h : b.lifecycle_status ∈ eventSources e <;>
      simp [runEvent, h]

/-- Witness for C2: from KEYWORD_APPROVED, `start_writing` succeeds and
commits WRITING_IN_PROGRESS. -/
theorem C2_book_fsm_transition_table_witness :
    (runEvent .start_writing 0 bookKeywordApproved).2 = true
    ∧ (runEvent .start_writing 0 bookKeywordApproved).1.lifecycle_status
        = .writing_in_progress := by
  have h := C2_book_fsm_transition_table .start_writing 0 bookKeywordApproved
  have hok : (runEvent .start_writing 0 bookKeywordApproved).2 = true :=
    h.1.mpr (by decide)
  exact ⟨hok, h.2.1 hok⟩

/-- C1 (evidence that the code lacks the quality gate): on a Book in
QA_REVIEW with `ai_detection_score = 25` — which the claimed gate
`ai_detection_score < 20 ∧ plagiarism_score < 3 ∧ checklist_complete`
rejects — `approve_for_export` nevertheless succeeds, commits
EXPORT_READY and sets `kdp_preflight_passed`, instead of raising
`QualityGateFailed` and leaving the state at QA_REVIEW.  Neither
`Book.approve_for_export` nor the API action consults the scores; no
`QualityGateFailed` exists anywhere in the source. -/
theorem C1_export_gate_not_enforced :
    (runEvent .approve_for_export 0 bookQaReviewHighAi).2 = true
    ∧ (runEvent .approve_for_export 0 bookQaReviewHighAi).1.lifecycle_status
        = .export_ready
    ∧ (runEvent .approve_for_export 0 bookQaReviewHighAi).1.kdp_preflight_passed
        = true
    ∧ bookQaReviewHighAi.ai_detection_score = some 25 :=
  ⟨rfl, rfl, rfl, rfl⟩

/-! ### Persistence model for concurrent transitions

`FSMField` performs a plain in-memory field check: a caller loads the row
into an object, the `@transition` wrapper validates the object's *in-memory*
`lifecycle_status` against the source list, and `book.save()` then overwrites
the whole row unconditionally — there is no conditional update and no version
column.  `RaceState` models one persisted row and two concurrent callers'
loaded copies; `raceStep` models the four primitive actions the API handlers
perform (load, then transition-and-save). -/

/-- One persisted Book row plus the in-memory copies held by two concurrent
callers, and whether each caller's transition call succeeded. -/
structure RaceState where
  db : Book
  copy1 : Option Book
  copy2 : Option Book
  ok1 : Bool
  ok2 : Bool
deriving DecidableEq, Repr

/-- Primitive actions of the two concurrent callers: load the row into the
caller's object (`self.get_object()`), or invoke an event on the caller's
object and save it (`book.<event>(); book.save()`). -/
inductive RaceAction where
  | load1
  | load2
  | trans_save1 (e : BookEvent)
  | trans_save2 (e : BookEvent)
deriving DecidableEq, Repr

/-- Interleaved execution of the two callers against the shared row.  A
transition is validated against the caller's loaded copy only; on success
`save()` overwrites the persisted row with the caller's object. -/
def raceStep (now : Nat) : RaceAction → RaceState → RaceState
  | .load1, st => { st with copy1 := some st.db }
  | .load2, st => { st with copy2 := some st.db }
  | .trans_save1 e, st =>
      match st.copy1 with
      | none => st
      | some c =>
          let (c', ok) := runEvent e now c
          if ok then { st with db := c', copy1 := some c', ok1 := true }
          else { st with ok1 := false }
  | .trans_save2 e, st =>
      match st.copy2 with
      | none => st
      | some c =>
          let (c', ok) := runEvent e now c
          if ok then { st with db := c', copy2 := some c', ok2 := true }
          else { st with ok2 := false }

/-- Run a sequence of interleaved caller actions from an initial row. -/
def runRace (now : Nat) (b : Book) (as : List RaceAction) : RaceState :=
  as.foldl (fun st a => raceStep now a st)
    { db := b, copy1 := none, copy2 := none, ok1 := false, ok2 := false }

/-- C9 (evidence that transitions are not atomic read-validate-write): two
callers both load a Book persisted in QA_REVIEW, then each runs
`approve_for_export` and saves.  Both calls succeed — each validated only its
own stale in-memory copy — contradicting the claim that two concurrent
callers racing on the same Book cannot both succeed from the same source
state. -/
theorem C9_concurrent_callers_both_succeed :
    (runRace 0 bookQaReviewHighAi
        [.load1, .load2,
         .trans_save1 .approve_for_export,
         .trans_save2 .approve_for_export]).ok1 = true
    ∧ (runRace 0 bookQaReviewHighAi
        [.load1, .load2,
         .trans_save1 .approve_for_export,
         .trans_save2 .approve_for_export]).ok2 = true
    ∧ bookQaReviewHighAi.lifecycle_status = .qa_review :=
  ⟨rfl, rfl, rfl⟩

/-! ### Chapter state machine (`src/novels/models/story.py`) -/

/-- The 8 Chapter statuses of `ChapterStatus`.  (`PENDING_WRITE` in the
source is an alias for the `ready_to_write` value, not a distinct state.) -/
inductive ChapterStatus where
  | pending
  | ready_to_write
  | writing
  | written
  | pending_qa
  | approved
  | rejected
  | published
deriving DecidableEq, Repr

/-- Word counting of `Chapter.save`: `len(self.content.split())` — Python
`str.split()` splits on whitespace runs and drops empty pieces. -/
def pythonWordCount (s : String) : Nat :=
  ((s.split Char.isWhitespace).filter (fun w => w ≠ "")).length

/-- The fields of the `Chapter` row that its operations and the claims read
or write. -/
structure Chapter where
  chapter_number : Nat
  status : ChapterStatus
  content : String
  word_count : Nat
  qa_notes : String
  qa_reviewed_at : Option Nat
  generation_model : String
  generation_tokens_used : Nat
  generation_cost_usd : ℚ
  generation_attempts : Nat
  is_deleted : Bool
deriving DecidableEq, Repr

/-- A freshly created chapter row: status PENDING, empty content and notes,
all counters at their defaults. -/
def newChapter (n : Nat) : Chapter :=
  { chapter_number := n, status := .pending, content := "", word_count := 0,
    qa_notes := "", qa_reviewed_at := none, generation_model := "",
    generation_tokens_used := 0, generation_cost_usd := 0,
    generation_attempts := 0, is_deleted := false }

namespace Chapter

/-- `Chapter.mark_ready_to_write`: unconditionally sets the status to
READY_TO_WRITE (persisted with `update_fields=['status', 'updated_at']`,
so no other column changes). -/
def mark_ready_to_write (c : Chapter) : Chapter :=
  { c with status := .ready_to_write }

/-- `Chapter.mark_written(content, model, tokens, cost)`: stores the content
and generation metadata, sets status PENDING_QA, increments
`generation_attempts`; the full `save()` then recomputes `word_count` from
the content (when the content is non-empty — `if self.content:`). -/
def mark_written (c : Chapter) (content model : String)
    (tokens : Nat) (cost : ℚ) : Chapter :=
  let c := { c with content := content, status := .pending_qa,
                    generation_model := model,
                    generation_tokens_used := tokens,
                    generation_cost_usd := cost,
                    generation_attempts := c.generation_attempts + 1 }
  if c.content ≠ "" then { c with word_count := pythonWordCount c.content }
  else c

/-- `Chapter.approve()`: sets status APPROVED and stamps `qa_reviewed_at`
with the current time. -/
def approve (c : Chapter) (now : Nat) : Chapter :=
  { c with status := .approved, qa_reviewed_at := some now }

/-- `Chapter.reject(notes)`: sets status REJECTED, stores the notes and
stamps `qa_reviewed_at`. -/
def reject (c : Chapter) (notes : String) (now : Nat) : Chapter :=
  { c with status := .rejected, qa_notes := notes, qa_reviewed_at := some now }

end Chapter

/-- C10 (implicit): `Chapter.mark_ready_to_write` checks no precondition and
never raises: from any status whatsoever it sets the status to
READY_TO_WRITE and changes nothing else, so calling it twice in a row equals
calling it once. -/
theorem C10_mark_ready_to_write_unconditional_idempotent (c : Chapter) :
    (c.mark_ready_to_write.status = .ready_to_write)
    ∧ c.mark_ready_to_write.mark_ready_to_write = c.mark_ready_to_write
    ∧ c.mark_ready_to_write
        = { c with status := .ready_to_write } :=
  ⟨rfl, rfl, rfl⟩

/-- The public chapter operations of claim C6, with the data each carries. -/
inductive ChapterOp where
  | approve (now : Nat)
  | reject (notes : String) (now : Nat)
  | mark_written (content model : String) (tokens : Nat) (cost : ℚ)
  | mark_ready_to_write
deriving Repr

/-- Apply one public chapter operation. -/
def applyChapterOp (c : Chapter) : ChapterOp → Chapter
  | .approve now => c.approve now
  | .reject notes now => c.reject notes now
  | .mark_written content model tokens cost =>
      c.mark_written content model tokens cost
  | .mark_ready_to_write => c.mark_ready_to_write

/-- Apply a sequence of public chapter operations. -/
def applyChapterOps (c : Chapter) (ops : List ChapterOp) : Chapter :=
  ops.foldl applyChapterOp c

/-- The QA invariant claimed by C6: APPROVED implies `qa_reviewed_at` is
set, and REJECTED implies `qa_notes` is non-empty. -/
def chapterQAInvariant (c : Chapter) : Prop :=
  (c.status = .approved → c.qa_reviewed_at ≠ none)
  ∧ (c.status = .rejected → c.qa_notes ≠ "")

instance (c : Chapter) : Decidable (chapterQAInvariant c) := by
  unfold chapterQAInvariant; infer_instance

/-- C6 counterexample: calling `reject` with empty notes on a fresh chapter
yields a reachable chapter with status REJECTED and `qa_notes = ""` —
`Chapter.reject` stores whatever notes it is given, so the claimed invariant
fails exactly in the "reject called with empty notes" case the claim
includes. -/
theorem C6_counterexample_reject_empty_notes :
    ¬ chapterQAInvariant
        (applyChapterOps (newChapter 1) [.reject "" 0]) := by
  decide

/-- Whether an operation is a `reject` carrying empty notes. -/
def isEmptyReject : ChapterOp → Prop
  | .reject notes _ => notes = ""
  | _ => False

instance (o : ChapterOp) : Decidable (isEmptyReject o) := by
  cases o <;> (unfold isEmptyReject; infer_instance)

/-- One public chapter operation with non-empty reject notes preserves the
QA invariant (in fact establishes it for the status it writes). -/
lemma chapterQAInvariant_step (c : Chapter) (o : ChapterOp)
    (ho : ¬ isEmptyReject o) (_hc : chapterQAInvariant c) :
    chapterQAInvariant (applyChapterOp c o) := by
  cases o with
  | approve now =>
      exact ⟨fun _ => by simp [applyChapterOp, Chapter.approve],
             fun h => by simp [applyChapterOp, Chapter.approve] at h⟩
  | reject notes now =>
      refine ⟨fun h => ?_, fun _ => ?_⟩
      · simp [applyChapterOp, Chapter.reject] at h
      · simpa [applyChapterOp, Chapter.reject, isEmptyReject] using ho
  | mark_written content model tokens cost =>
      constructor <;>
        · intro h
          simp only [applyChapterOp, Chapter.mark_written] at h
          split at h <;> simp_all
  | mark_ready_to_write =>
      exact ⟨fun h => by simp [applyChapterOp,
               Chapter.mark_ready_to_write] at h,
             fun h => by simp [applyChapterOp,
               Chapter.mark_ready_to_write] at h⟩

/-- Folding a list of public chapter operations, all rejects carrying
non-empty notes, preserves the QA invariant. -/
lemma chapterQAInvariant_foldl (ops : List ChapterOp) (c : Chapter)
    (hc : chapterQAInvariant c) (hnotes : ∀ o ∈ ops, ¬ isEmptyReject o) :
    chapterQAInvariant (applyChapterOps c ops) := by
  induction ops generalizing c with
  | nil => exact hc
  | cons o os ih =>
      exact ih (applyChapterOp c o)
        (chapterQAInvariant_step c o (hnotes o (List.mem_cons_self o os)) hc)
        (fun o' ho' => hnotes o' (List.mem_cons_of_mem o ho'))

/-- The APPROVED half of the QA invariant on its own: APPROVED implies
`qa_reviewed_at` is set. -/
def chapterApprovedInvariant (c : Chapter) : Prop :=
  c.status = .approved → c.qa_reviewed_at ≠ none

/-- Every public chapter operation — including `reject` with empty notes —
preserves the APPROVED half of the QA invariant: only `approve` produces
the APPROVED status, and it always stamps `qa_reviewed_at`. -/
lemma chapterApprovedInvariant_step (c : Chapter) (o : ChapterOp)
    (_hc : chapterApprovedInvariant c) :
    chapterApprovedInvariant (applyChapterOp c o) := by
  cases o with
  | approve now =>
      exact fun _ => by simp [applyChapterOp, Chapter.approve]
  | reject notes now =>
      exact fun h => by simp [applyChapterOp, Chapter.reject] at h
  | mark_written content model tokens cost =>
      intro h
      simp only [applyChapterOp, Chapter.mark_written] at h
      split at h <;> simp_all
  | mark_ready_to_write =>
      exact fun h => by
        simp [applyChapterOp, Chapter.mark_ready_to_write] at h

/-- Folding any list of public chapter operations preserves the APPROVED
half of the QA invariant, with no restriction on reject notes. -/
lemma chapterApprovedInvariant_foldl (ops : List ChapterOp) (c : Chapter)
    (hc : chapterApprovedInvariant c) :
    chapterApprovedInvariant (applyChapterOps c ops) := by
  induction ops generalizing c with
  | nil => exact hc
  | cons o os ih =>
      exact ih (applyChapterOp c o) (chapterApprovedInvariant_step c o hc)

/-- C6 (amended): for every chapter reachable from a fresh chapter through
the public operations, APPROVED implies `qa_reviewed_at` is set —
unconditionally, for every history, including ones containing `reject`
with empty notes; and REJECTED implies `qa_notes` non-empty provided every
`reject` in the sequence carried non-empty notes (which the API layer
enforces by returning HTTP 400 on empty notes before calling
`Chapter.reject`). -/
theorem C6_qa_invariant_amended (n : Nat) (ops : List ChapterOp) :
    ((applyChapterOps (newChapter n) ops).status = .approved →
      (applyChapterOps (newChapter n) ops).qa_reviewed_at ≠ none)
    ∧ ((∀ o ∈ ops, ¬ isEmptyReject o) →
        (applyChapterOps (newChapter n) ops).status = .rejected →
        (applyChapterOps (newChapter n) ops).qa_notes ≠ "") := by
  constructor
  · exact chapterApprovedInvariant_foldl ops (newChapter n)
      (fun h => by simp [newChapter] at h)
  · intro hnotes
    refine (chapterQAInvariant_foldl ops (newChapter n) ?_ hnotes).2
    constructor <;> (intro h; simp [newChapter] at h)

/-- Witness for C6 (amended) at two concrete histories: one containing a
`reject` with empty notes followed by `approve` — the chapter ends APPROVED
and `qa_reviewed_at` is set regardless of the empty-notes reject — and one
whose reject carries real notes — the chapter ends REJECTED with non-empty
`qa_notes`. -/
theorem C6_qa_invariant_amended_witness :
    ((applyChapterOps (newChapter 3) [.reject "" 0, .approve 5]).status
        = .approved
      ∧ (applyChapterOps (newChapter 3)
          [.reject "" 0, .approve 5]).qa_reviewed_at ≠ none)
    ∧ ((applyChapterOps (newChapter 4)
          [.mark_ready_to_write,
           .mark_written "first draft text" "gemini-1.5-pro" 900 (3/100),
           .reject "pacing too slow" 10]).status = .rejected
      ∧ (applyChapterOps (newChapter 4)
          [.mark_ready_to_write,
           .mark_written "first draft text" "gemini-1.5-pro" 900 (3/100),
           .reject "pacing too slow" 10]).qa_notes ≠ "") :=
  ⟨⟨by decide,
    (C6_qa_invariant_amended 3 [.reject "" 0, .approve 5]).1 (by decide)⟩,
   ⟨by decide,
    (C6_qa_invariant_amended 4
      [.mark_ready_to_write,
       .mark_written "first draft text" "gemini-1.5-pro" 900 (3/100),
       .reject "pacing too slow" 10]).2 (by decide) (by decide)⟩⟩

/-! ### Content generation tasks (`src/novels/tasks/content.py`) -/

/-- The value returned by the external text-generation provider
(`AIWriterService.write_chapter`). -/
structure GenResult where
  content : String
  model : String
  tokens_used : Nat
  cost_usd : ℚ
deriving Repr

/-- The successful path of the `write_chapter` task body: it fetches the
chapter by id, unconditionally sets its status to WRITING and saves, calls
the provider, then calls `mark_written` with the result.  No check of the
chapter's current status is performed anywhere in the task. -/
def write_chapter (c : Chapter) (r : GenResult) : Chapter :=
  let c := { c with status := ChapterStatus.writing }
  c.mark_written r.content r.model r.tokens_used r.cost_usd

/-- An already approved, fully written chapter, as left behind by a
completed QA pass. -/
def approvedChapter : Chapter :=
  { chapter_number := 4, status := .approved, content := "final approved text",
    word_count := 3, qa_notes := "", qa_reviewed_at := some 100,
    generation_model := "gemini-1.5-pro", generation_tokens_used := 1000,
    generation_cost_usd := 3/100, generation_attempts := 1,
    is_deleted := false }

/-- C3 (evidence that the code does not re-verify the pre-state): delivering
a `write_chapter` work unit for a chapter that is no longer READY_TO_WRITE —
here one already APPROVED, as happens when the queue delivers the unit a
second time after review — is not a no-op: the task overwrites the approved
content and moves the chapter to PENDING_QA, instead of leaving it
unmodified.  `write_chapter` contains no compare-and-swap on the status. -/
theorem C3_write_chapter_no_prestate_check :
    approvedChapter.status = .approved
    ∧ (write_chapter approvedChapter
        ⟨"regenerated text", "gemini-1.5-pro", 1100, 3/100⟩).status
        = .pending_qa
    ∧ (write_chapter approvedChapter
        ⟨"regenerated text", "gemini-1.5-pro", 1100, 3/100⟩).content
        = "regenerated text"
    ∧ write_chapter approvedChapter
        ⟨"regenerated text", "gemini-1.5-pro", 1100, 3/100⟩
        ≠ approvedChapter := by
  refine ⟨rfl, by decide, by decide, ?_⟩
  intro h
  have := congrArg Chapter.status h
  simp [write_chapter, Chapter.mark_written, approvedChapter] at this

/-- Ascending `chapter_number` order (the `order_by('chapter_number')` of
the daily sweep's queryset). -/
def byChapterNumber (a b : Chapter) : Prop :=
  a.chapter_number ≤ b.chapter_number

instance : DecidableRel byChapterNumber :=
  fun a b => Nat.decLe a.chapter_number b.chapter_number

instance : IsTotal Chapter byChapterNumber :=
  ⟨fun a b => Nat.le_total a.chapter_number b.chapter_number⟩

instance : IsTrans Chapter byChapterNumber :=
  ⟨fun _ _ _ h h' => Nat.le_trans h h'⟩

/-- The per-Book chapter selection of `run_daily_content_generation`:
chapters with `status=READY_TO_WRITE, is_deleted=False`, ordered by
`chapter_number`, capped at 5 (`[:5]  # Max 5 per book per day`). -/
def selectChaptersToWrite (chapters : List Chapter) : List Chapter :=
  ((chapters.filter fun c =>
      c.status == ChapterStatus.ready_to_write && !c.is_deleted).insertionSort
    byChapterNumber).take 5

/-- `run_daily_content_generation` restricted to one Book: the sweep only
processes Books with `lifecycle_status=WRITING_IN_PROGRESS, is_deleted=False`
and queues one `write_chapter` unit per selected chapter. -/
def run_daily_content_generation_forBook (b : Book) (chapters : List Chapter) :
    List Chapter :=
  if b.lifecycle_status = .writing_in_progress ∧ b.is_deleted = false then
    selectChaptersToWrite chapters
  else []

/-- The generation work units the sweep dispatches for one Book, identified
by the (per-Book unique) chapter number of the chapter each unit carries. -/
def dispatchedWriteUnits (b : Book) (chapters : List Chapter) : List Nat :=
  (run_daily_content_generation_forBook b chapters).map Chapter.chapter_number

/-- C7: one run of the daily generation sweep dispatches, for a Book in
WRITING_IN_PROGRESS, at most 5 work units, chooses only (non-deleted)
READY_TO_WRITE chapters, selects them in ascending `chapter_number` order,
and dispatches exactly one unit per selected chapter (the unit list arises
as the one-to-one image of the selection, with no chapter repeated given the
per-Book uniqueness of `chapter_number`). -/
theorem C7_daily_sweep_admission_control (b : Book) (chapters : List Chapter)
    (hb : b.lifecycle_status = .writing_in_progress)
    (hbd : b.is_deleted = false)
    (hnodup : (chapters.map Chapter.chapter_number).Nodup) :
    (run_daily_content_generation_forBook b chapters).length ≤ 5
    ∧ (∀ c ∈ run_daily_content_generation_forBook b chapters,
        c.status = .ready_to_write ∧ c.is_deleted = false)
    ∧ List.Sorted byChapterNumber
        (run_daily_content_generation_forBook b chapters)
    ∧ (dispatchedWriteUnits b chapters).Nodup := by
  have hrun : run_daily_content_generation_forBook b chapters
      = selectChaptersToWrite chapters := by
    simp [run_daily_content_generation_forBook, hb, hbd]
  set F := chapters.filter fun c =>
      c.status == ChapterStatus.ready_to_write && !c.is_deleted with hF
  set S := F.insertionSort byChapterNumber with hS
  have hperm : List.Perm S F := List.perm_insertionSort byChapterNumber F
  refine ⟨?_, ?_, ?_, ?_⟩
  · rw [hrun]
    simp [selectChaptersToWrite, List.length_take, ← hF, ← hS]
  · intro c hc
    rw [hrun] at hc
    have hcS : c ∈ S := List.mem_of_mem_take hc
    have hcF : c ∈ F := hperm.mem_iff.mp hcS
    have := List.mem_filter.mp hcF
    simpa [Bool.and_eq_true, beq_iff_eq, Bool.not_eq_true'] using this.2
  · rw [hrun]
    exact List.Pairwise.sublist (List.take_sublist 5 S)
      (List.sorted_insertionSort byChapterNumber F)
  · have h1 : (F.map Chapter.chapter_number).Nodup :=
      hnodup.sublist (List.Sublist.map Chapter.chapter_number
        (List.filter_sublist chapters))
    have h2 : (S.map Chapter.chapter_number).Nodup :=
      ((hperm.map Chapter.chapter_number).nodup_iff).mpr h1
    have h3 : ((S.take 5).map Chapter.chapter_number).Nodup :=
      h2.sublist (List.Sublist.map Chapter.chapter_number
        (List.take_sublist 5 S))
    simpa [dispatchedWriteUnits, hrun, selectChaptersToWrite, ← hF, ← hS]
      using h3

/-- A Book in WRITING_IN_PROGRESS. -/
def bookWriting : Book :=
  { lifecycle_status := .writing_in_progress, ai_detection_score := none,
    plagiarism_score := none, kdp_preflight_passed := false,
    published_at := none, target_chapter_count := 80, is_deleted := false }

/-- Eight chapters of `bookWriting` in assorted statuses, seven of them
READY_TO_WRITE (more than the cap of 5). -/
def sampleChapters : List Chapter :=
  [(newChapter 7).mark_ready_to_write,
   (newChapter 2).mark_ready_to_write,
   newChapter 3,
   (newChapter 5).mark_ready_to_write,
   (newChapter 1).mark_ready_to_write,
   (newChapter 8).mark_ready_to_write,
   (newChapter 6).mark_ready_to_write,
   (newChapter 4).mark_ready_to_write]

/-- Witness for C7 at a concrete Book and chapter list. -/
theorem C7_daily_sweep_admission_control_witness :
    (run_daily_content_generation_forBook bookWriting sampleChapters).length ≤ 5
    ∧ (∀ c ∈ run_daily_content_generation_forBook bookWriting sampleChapters,
        c.status = .ready_to_write ∧ c.is_deleted = false)
    ∧ List.Sorted byChapterNumber
        (run_daily_content_generation_forBook bookWriting sampleChapters)
    ∧ (dispatchedWriteUnits bookWriting sampleChapters).Nodup :=
  C7_daily_sweep_admission_control bookWriting sampleChapters rfl rfl
    (by decide)

/-! ### Progress aggregator (`Book.get_chapter_completion_percentage`) -/

/-- Python's `round(x, 1)` modelled over exact rationals.  (The source
computes over floats; every value the claims evaluate — 0, 100, 110 — is
float-exact, so the rational model agrees with the code there.) -/
def round1 (q : ℚ) : ℚ := (round (q * 10) : ℤ) / 10

/-- `Book.get_chapter_completion_percentage`: 0 when
`target_chapter_count == 0`, otherwise
`round((approved_count / target_chapter_count) * 100, 1)`, where
`approved_count` counts the book's chapters with status `approved` (no cap
is applied). -/
def get_chapter_completion_percentage (target : Nat)
    (chapters : List Chapter) : ℚ :=
  if target = 0 then 0
  else
    round1
      ((((chapters.filter fun c =>
            c.status == ChapterStatus.approved).length : ℚ) / (target : ℚ))
        * 100)

/-- Eleven approved chapters — one more than a target of 10, as happens when
a book holds more chapters than `target_chapter_count`. -/
def elevenApproved : List Chapter :=
  (List.range 11).map fun i => (newChapter (i + 1)).approve 0

/-- C8 counterexample: with `target_chapter_count = 10` and 11 APPROVED
chapters (approved ≥ target), `get_chapter_completion_percentage` returns
110, not 100 — the code never caps the ratio at 100%. -/
theorem C8_counterexample_over_target :
    ((elevenApproved.filter fun c =>
        c.status == ChapterStatus.approved).length = 11)
    ∧ get_chapter_completion_percentage 10 elevenApproved = 110
    ∧ get_chapter_completion_percentage 10 elevenApproved ≠ 100 := by
  refine ⟨by decide, ?_, ?_⟩ <;>
    · show _
      norm_num [get_chapter_completion_percentage, round1, elevenApproved,
        newChapter, Chapter.approve, List.range_succ]

/-- C8 (amended): `get_chapter_completion_percentage` returns 0 when no
chapter is APPROVED; for a non-zero target it returns exactly 100 when the
APPROVED count equals the target, and returns at least 100 (rather than
exactly 100) whenever the APPROVED count is at least the target. -/
theorem C8_completion_percentage_amended (target : Nat)
    (chapters : List Chapter) :
    ((chapters.filter fun c =>
        c.status == ChapterStatus.approved).length = 0 →
      get_chapter_completion_percentage target chapters = 0)
    ∧ (target ≠ 0 →
        (chapters.filter fun c =>
          c.status == ChapterStatus.approved).length = target →
        get_chapter_completion_percentage target chapters = 100)
    ∧ (target ≠ 0 →
        target ≤ (chapters.filter fun c =>
          c.status == ChapterStatus.approved).length →
        100 ≤ get_chapter_completion_percentage target chapters) := by
  set n := (chapters.filter fun c =>
      c.status == ChapterStatus.approved).length with hn
  refine ⟨?_, ?_, ?_⟩
  · intro h0
    by_cases ht : target = 0 <;>
      simp [get_chapter_completion_percentage, ← hn, h0, ht, round1]
  · intro ht heq
    have htQ : (target : ℚ) ≠ 0 := Nat.cast_ne_zero.mpr ht
    simp only [get_chapter_completion_percentage, ← hn, ht, if_false, heq]
    rw [div_self htQ]
    norm_num [round1]
  · intro ht hle
    have htQ : (0 : ℚ) < (target : ℚ) := by
      exact_mod_cast Nat.pos_of_ne_zero ht
    have hq : (100 : ℚ) ≤ ((n : ℚ) / (target : ℚ)) * 100 := by
      have h1 : (1 : ℚ) ≤ (n : ℚ) / (target : ℚ) :=
        (one_le_div htQ).mpr (by exact_mod_cast hle)
      nlinarith
    simp only [get_chapter_completion_percentage, ← hn, ht, if_false]
    unfold round1
    rw [round_eq]
    have hfloor : (1000 : ℤ) ≤ ⌊(n : ℚ) / (target : ℚ) * 100 * 10 + 1 / 2⌋ := by
      rw [Int.le_floor]
      push_cast
      nlinarith
    have : ((1000 : ℤ) : ℚ) ≤ (⌊(n : ℚ) / (target : ℚ) * 100 * 10 + 1 / 2⌋ : ℚ) := by
      exact_mod_cast hfloor
    linarith

/-- Ten approved chapters, matching a target of 10. -/
def tenApproved : List Chapter :=
  (List.range 10).map fun i => (newChapter (i + 1)).approve 0

/-- Witness for C8 (amended) at concrete inputs: 0 approved of 10 gives 0,
10 of 10 gives exactly 100, 11 of 10 gives at least 100. -/
theorem C8_completion_percentage_amended_witness :
    get_chapter_completion_percentage 10 [] = 0
    ∧ get_chapter_completion_percentage 10 tenApproved = 100
    ∧ 100 ≤ get_chapter_completion_percentage 10 elevenApproved :=
  ⟨(C8_completion_percentage_amended 10 []).1 (by decide),
   (C8_completion_percentage_amended 10 tenApproved).2.1 (by decide)
     (by decide),
   (C8_completion_percentage_amended 10 elevenApproved).2.2 (by decide)
     (by decide)⟩

/-! ### Pricing phase engine (`src/novels/models/marketing.py`,
`src/novels/tasks/pricing.py`) -/

/-- The 5 pricing phases of `PricingPhase`. -/
inductive PricingPhase where
  | launch
  | growth
  | mature
  | promo
  | bundle
deriving DecidableEq, Repr

/-- `PromotionType` choices. -/
inductive PromotionType where
  | kindle_countdown
  | free_promo
  | price_drop
deriving DecidableEq, Repr

/-- One `price_history` entry `{date, price, phase, reason}`; the date is an
abstract instant. -/
structure PriceHistoryEntry where
  date : Int
  price : ℚ
  phase : PricingPhase
  reason : String
deriving DecidableEq, Repr

/-- The fields of the `PricingStrategy` row that the pricing tasks read or
write.  Dates are abstract day numbers (`Int`). -/
structure PricingStrategy where
  current_phase : PricingPhase
  current_price_usd : ℚ
  reviews_threshold_for_growth : Nat
  days_in_launch_phase : Nat
  is_kdp_select : Bool
  next_promotion_date : Option Int
  next_promotion_type : Option PromotionType
  last_promotion_date : Option Int
  days_between_promotions : Nat
  auto_price_enabled : Bool
  price_history : List PriceHistoryEntry
deriving DecidableEq, Repr

/-- `PricingStrategy.log_price_change`: appends one entry to
`price_history`; nothing else is touched. -/
def PricingStrategy.log_price_change (s : PricingStrategy) (today : Int)
    (new_price : ℚ) (new_phase : PricingPhase) (reason : String) :
    PricingStrategy :=
  { s with price_history :=
      s.price_history ++ [⟨today, new_price, new_phase, reason⟩] }

/-- The per-strategy body of `auto_transition_pricing`.  `dsp` is
`days_since_publish` (0 when `published_at` is unset), `rc` the review count
(0 without a tracker), `today` the current date.  The phase dispatch, the
guards, the new prices (`Decimal('2.99')` / `Decimal('3.99')`) and the final
"apply transition if changed" guard are transcribed from the source; the
two nested `if`s of the LAUNCH branch appear as one conjunction. -/
def autoTransitionStep (today dsp : Int) (rc : Nat) (s : PricingStrategy) :
    PricingStrategy :=
  let upd : Option (PricingPhase × ℚ × String) :=
    match s.current_phase with
    | .launch =>
        if (s.days_in_launch_phase : Int) ≤ dsp
            ∧ s.reviews_threshold_for_growth ≤ rc then
          some (.growth, 299 / 100,
            "Launch phase complete (" ++ toString dsp ++ " days, "
              ++ toString rc ++ " reviews)")
        else none
    | .growth =>
        if (30 : Int) ≤ dsp ∧ 50 ≤ rc then
          some (.mature, 399 / 100,
            "Growth complete (" ++ toString rc ++ " reviews, "
              ++ toString dsp ++ " days)")
        else none
    | .promo =>
        match s.last_promotion_date with
        | some lpd =>
            if (7 : Int) ≤ today - lpd then
              some (.mature, 399 / 100, "Promotional period ended")
            else none
        | none => none
    | _ => none
  match upd with
  | some (p, pr, reason) =>
      if p ≠ s.current_phase ∨ pr ≠ s.current_price_usd then
        ({ s with current_phase := p,
                  current_price_usd := pr }).log_price_change today pr p reason
      else s
  | none => s

/-- The queryset gate of `auto_transition_pricing`: only strategies with
`auto_price_enabled=True` on a non-deleted Book in PUBLISHED_KDP or
PUBLISHED_ALL are processed. -/
def dailyPricingSweepStrategy (today dsp : Int) (rc : Nat)
    (bookStatus : BookLifecycleStatus) (bookDeleted : Bool)
    (s : PricingStrategy) : PricingStrategy :=
  if s.auto_price_enabled = true
      ∧ (bookStatus = .published_kdp ∨ bookStatus = .published_all)
      ∧ bookDeleted = false then
    autoTransitionStep today dsp rc s
  else s

/-- The per-strategy body of the weekly `schedule_kindle_countdown` sweep:
for KDP-Select strategies in MATURE with auto-pricing on (its queryset
gate), once `days_since_last_promotion ≥ days_between_promotions` (taken as
satisfied when no promotion ever ran) it books the next promotion one week
out; `current_phase`, prices and history are never touched. -/
def scheduleCountdownStep (today : Int) (bookDeleted : Bool)
    (s : PricingStrategy) : PricingStrategy :=
  if s.is_kdp_select = true ∧ s.current_phase = .mature
      ∧ s.auto_price_enabled = true ∧ bookDeleted = false then
    match s.last_promotion_date with
    | some lpd =>
        if today - lpd < s.days_between_promotions then s
        else { s with next_promotion_date := some (today + 7),
                      next_promotion_type := some .kindle_countdown }
    | none => { s with next_promotion_date := some (today + 7),
                       next_promotion_type := some .kindle_countdown }
  else s

/-- One application of a pricing sweep to a strategy, with the environment
(dates, review count, owning Book's status) the sweep reads. -/
inductive PricingSweep where
  | daily (today dsp : Int) (rc : Nat) (bookStatus : BookLifecycleStatus)
      (bookDeleted : Bool)
  | weekly (today : Int) (bookDeleted : Bool)
deriving Repr

/-- Apply one sweep. -/
def applySweep (w : PricingSweep) (s : PricingStrategy) : PricingStrategy :=
  match w with
  | .daily today dsp rc st bd => dailyPricingSweepStrategy today dsp rc st bd s
  | .weekly today bd => scheduleCountdownStep today bd s

/-- Apply a sequence of sweeps. -/
def applySweeps (s : PricingStrategy) (ws : List PricingSweep) :
    PricingStrategy :=
  ws.foldl (fun t w => applySweep w t) s

/-- C4: a LAUNCH strategy processed by the daily sweep moves to GROWTH
exactly when `days_since_publish ≥ days_in_launch_phase` and
`review_count ≥ reviews_threshold_for_growth`; when it does, the price
becomes 2.99 and exactly one new entry is appended to `price_history`
(every prior entry unchanged, since the new history is the old list with
one entry appended); otherwise the strategy is untouched. -/
theorem C4_launch_to_growth (today dsp : Int) (rc : Nat)
    (bookStatus : BookLifecycleStatus) (s : PricingStrategy)
    (hauto : s.auto_price_enabled = true)
    (hpub : bookStatus = .published_kdp ∨ bookStatus = .published_all)
    (hphase : s.current_phase = .launch) :
    ((dailyPricingSweepStrategy today dsp rc bookStatus false s).current_phase
        = .growth
      ↔ ((s.days_in_launch_phase : Int) ≤ dsp
          ∧ s.reviews_threshold_for_growth ≤ rc))
    ∧ (((s.days_in_launch_phase : Int) ≤ dsp
          ∧ s.reviews_threshold_for_growth ≤ rc) →
        (dailyPricingSweepStrategy today dsp rc bookStatus false
            s).current_price_usd = 299 / 100
        ∧ (dailyPricingSweepStrategy today dsp rc bookStatus false
              s).price_history
            = s.price_history
              ++ [⟨today, 299 / 100, .growth,
                    "Launch phase complete (" ++ toString dsp ++ " days, "
                      ++ toString rc ++ " reviews)"⟩])
    ∧ (¬ ((s.days_in_launch_phase : Int) ≤ dsp
          ∧ s.reviews_threshold_for_growth ≤ rc) →
        dailyPricingSweepStrategy today dsp rc bookStatus false s = s) := by
  have hgate : dailyPricingSweepStrategy today dsp rc bookStatus false s
      = autoTransitionStep today dsp rc s := by
    simp [dailyPricingSweepStrategy, hauto, hpub]
  by_cases hc : (s.days_in_launch_phase : Int) ≤ dsp
      ∧ s.reviews_threshold_for_growth ≤ rc
  · have hstep : autoTransitionStep today dsp rc s
        = ({ s with current_phase := .growth,
                    current_price_usd := 299 / 100 }).log_price_change today
            (299 / 100) .growth
            ("Launch phase complete (" ++ toString dsp ++ " days, "
              ++ toString rc ++ " reviews)") := by
      unfold autoTransitionStep
      rw [hphase]
      simp [hc, hphase]
    refine ⟨?_, fun _ => ⟨?_, ?_⟩, fun hn => absurd hc hn⟩ <;>
      simp [hgate, hstep, PricingStrategy.log_price_change, hc]
  · have hstep : autoTransitionStep today dsp rc s = s := by
      unfold autoTransitionStep
      rw [hphase]
      simp [hc]
    refine ⟨?_, fun hy => absurd hy hc, fun _ => by rw [hgate, hstep]⟩
    rw [hgate, hstep, hphase]
    simp [hc]

/-- Strategy freshly created for a launch: phase LAUNCH, price 0.99,
default thresholds (20 reviews, 7 days), one initial history entry. -/
def launchStrategy : PricingStrategy :=
  { current_phase := .launch, current_price_usd := 99 / 100,
    reviews_threshold_for_growth := 20, days_in_launch_phase := 7,
    is_kdp_select := true, next_promotion_date := none,
    next_promotion_type := none, last_promotion_date := none,
    days_between_promotions := 90, auto_price_enabled := true,
    price_history := [⟨0, 99 / 100, .launch, "Initial launch"⟩] }

/-- Witness for C4: after 8 elapsed days with 25 reviews (thresholds 7 and
20), the daily sweep moves `launchStrategy` to GROWTH at price 2.99 and
appends exactly one history entry after the untouched initial entry. -/
theorem C4_launch_to_growth_witness :
    (dailyPricingSweepStrategy 8 8 25 .published_kdp false
        launchStrategy).current_phase = .growth
    ∧ (dailyPricingSweepStrategy 8 8 25 .published_kdp false
        launchStrategy).current_price_usd = 299 / 100
    ∧ (dailyPricingSweepStrategy 8 8 25 .published_kdp false
          launchStrategy).price_history
        = [⟨0, 99 / 100, .launch, "Initial launch"⟩,
           ⟨8, 299 / 100, .growth,
            "Launch phase complete (" ++ toString (8 : Int) ++ " days, "
              ++ toString 25 ++ " reviews)"⟩] := by
  have h := C4_launch_to_growth 8 8 25 .published_kdp launchStrategy rfl
    (Or.inl rfl) rfl
  have hcond : ((launchStrategy.days_in_launch_phase : Int) ≤ 8
      ∧ launchStrategy.reviews_threshold_for_growth ≤ 25) := by decide
  exact ⟨h.1.mpr hcond, (h.2.1 hcond).1, (h.2.1 hcond).2⟩

/-- Computation of `autoTransitionStep` on a LAUNCH strategy. -/
lemma autoTransitionStep_launch (today dsp : Int) (rc : Nat)
    (s : PricingStrategy) (hp : s.current_phase = .launch) :
    autoTransitionStep today dsp rc s
      = if (s.days_in_launch_phase : Int) ≤ dsp
            ∧ s.reviews_threshold_for_growth ≤ rc then
          ({ s with current_phase := .growth,
                    current_price_usd := 299 / 100 }).log_price_change today
            (299 / 100) .growth
            ("Launch phase complete (" ++ toString dsp ++ " days, "
              ++ toString rc ++ " reviews)")
        else s := by
  unfold autoTransitionStep
  rw [hp]
  by_cases hc : (s.days_in_launch_phase : Int) ≤ dsp
      ∧ s.reviews_threshold_for_growth ≤ rc <;> simp [hc]

/-- Computation of `autoTransitionStep` on a GROWTH strategy. -/
lemma autoTransitionStep_growth (today dsp : Int) (rc : Nat)
    (s : PricingStrategy) (hp : s.current_phase = .growth) :
    autoTransitionStep today dsp rc s
      = if (30 : Int) ≤ dsp ∧ 50 ≤ rc then
          ({ s with current_phase := .mature,
                    current_price_usd := 399 / 100 }).log_price_change today
            (399 / 100) .mature
            ("Growth complete (" ++ toString rc ++ " reviews, "
              ++ toString dsp ++ " days)")
        else s := by
  unfold autoTransitionStep
  rw [hp]
  by_cases hc : (30 : Int) ≤ dsp ∧ 50 ≤ rc <;> simp [hc]

/-- Computation of `autoTransitionStep` on a PROMO strategy with a recorded
last promotion date. -/
lemma autoTransitionStep_promo_some (today dsp : Int) (rc : Nat)
    (s : PricingStrategy) (lpd : Int) (hp : s.current_phase = .promo)
    (hl : s.last_promotion_date = some lpd) :
    autoTransitionStep today dsp rc s
      = if (7 : Int) ≤ today - lpd then
          ({ s with current_phase := .mature,
                    current_price_usd := 399 / 100 }).log_price_change today
            (399 / 100) .mature "Promotional period ended"
        else s := by
  unfold autoTransitionStep
  rw [hp, hl]
  by_cases hc : (7 : Int) ≤ today - lpd <;> simp [hc]

/-- `autoTransitionStep` leaves a strategy alone when its phase is PROMO
without a last promotion date, or MATURE, or BUNDLE. -/
lemma autoTransitionStep_fix (today dsp : Int) (rc : Nat)
    (s : PricingStrategy)
    (hp : (s.current_phase = .promo ∧ s.last_promotion_date = none)
        ∨ s.current_phase = .mature ∨ s.current_phase = .bundle) :
    autoTransitionStep today dsp rc s = s := by
  rcases hp with ⟨hp, hl⟩ | hp | hp
  · unfold autoTransitionStep
    rw [hp, hl]
  · unfold autoTransitionStep
    rw [hp]
  · unfold autoTransitionStep
    rw [hp]

/-- A single pricing-sweep step never moves a phase backwards: it preserves
the phase or performs one of LAUNCH→GROWTH, GROWTH→MATURE, PROMO→MATURE. -/
lemma applySweep_phase_forward (w : PricingSweep) (t : PricingStrategy) :
    (applySweep w t).current_phase = t.current_phase
    ∨ (t.current_phase = .launch
        ∧ (applySweep w t).current_phase = .growth)
    ∨ (t.current_phase = .growth
        ∧ (applySweep w t).current_phase = .mature)
    ∨ (t.current_phase = .promo
        ∧ (applySweep w t).current_phase = .mature) := by
  cases w with
  | daily today dsp rc st bd =>
      simp only [applySweep, dailyPricingSweepStrategy]
      split_ifs with hgate
      · cases hp : t.current_phase with
        | launch =>
            rw [autoTransitionStep_launch today dsp rc t hp]
            split_ifs with hc
            · exact Or.inr (Or.inl ⟨rfl, rfl⟩)
            · exact Or.inl hp
        | growth =>
            rw [autoTransitionStep_growth today dsp rc t hp]
            split_ifs with hc
            · exact Or.inr (Or.inr (Or.inl ⟨rfl, rfl⟩))
            · exact Or.inl hp
        | promo =>
            cases hl : t.last_promotion_date with
            | none =>
                rw [autoTransitionStep_fix today dsp rc t (Or.inl ⟨hp, hl⟩)]
                exact Or.inl hp
            | some lpd =>
                rw [autoTransitionStep_promo_some today dsp rc t lpd hp hl]
                split_ifs with hc
                · exact Or.inr (Or.inr (Or.inr ⟨rfl, rfl⟩))
                · exact Or.inl hp
        | mature =>
            rw [autoTransitionStep_fix today dsp rc t (Or.inr (Or.inl hp))]
            exact Or.inl hp
        | bundle =>
            rw [autoTransitionStep_fix today dsp rc t (Or.inr (Or.inr hp))]
            exact Or.inl hp
      · exact Or.inl rfl
  | weekly today bd =>
      refine Or.inl ?_
      simp only [applySweep, scheduleCountdownStep]
      split_ifs with hgate
      · cases hl : t.last_promotion_date with
        | none => simp [hl]
        | some lpd =>
            simp only [hl]
            split_ifs <;> rfl
      · rfl

/-- Every pricing sweep leaves a MATURE strategy in MATURE. -/
lemma applySweep_preserves_mature (w : PricingSweep) (t : PricingStrategy)
    (h : t.current_phase = .mature) :
    (applySweep w t).current_phase = .mature := by
  rcases applySweep_phase_forward w t with h1 | ⟨h2, _⟩ | ⟨h2, _⟩ | ⟨h2, _⟩ <;>
    first
      | (rw [h1, h])
      | (rw [h] at h2; cases h2)

/-- C5: once a PricingStrategy is MATURE, no sequence of daily
auto-transition or weekly promotion-scheduling sweeps ever moves it back to
LAUNCH or GROWTH (it stays MATURE); moreover each single sweep step only
moves phases forward — LAUNCH→GROWTH, GROWTH→MATURE — with PROMO→MATURE as
the only exit from PROMO. -/
theorem C5_mature_phase_terminal (s : PricingStrategy)
    (ws : List PricingSweep) (h : s.current_phase = .mature) :
    (applySweeps s ws).current_phase = .mature
    ∧ ∀ (w : PricingSweep) (t : PricingStrategy),
        (applySweep w t).current_phase = t.current_phase
        ∨ (t.current_phase = .launch
            ∧ (applySweep w t).current_phase = .growth)
        ∨ (t.current_phase = .growth
            ∧ (applySweep w t).current_phase = .mature)
        ∨ (t.current_phase = .promo
            ∧ (applySweep w t).current_phase = .mature) := by
  refine ⟨?_, applySweep_phase_forward⟩
  induction ws generalizing s with
  | nil => exact h
  | cons w ws ih =>
      exact ih (applySweep w s) (applySweep_preserves_mature w s h)

/-- A MATURE strategy. -/
def matureStrategy : PricingStrategy :=
  { launchStrategy with current_phase := .mature,
                        current_price_usd := 399 / 100 }

/-- Witness for C5: a concrete run of three sweeps over a MATURE strategy
leaves it MATURE. -/
theorem C5_mature_phase_terminal_witness :
    (applySweeps matureStrategy
      [.daily 40 40 60 .published_kdp false,
       .weekly 41 false,
       .daily 42 42 80 .published_all false]).current_phase = .mature :=
  (C5_mature_phase_terminal matureStrategy
    [.daily 40 40 60 .published_kdp false,
     .weekly 41 false,
     .daily 42 42 80 .published_all false] rfl).1

end NovelFactory
